import Mathlib

/-!
Verification of the jiya_backend conversational-assistant core against its
specification.  The development shallowly embeds the Python services:

* `app/services/firebase_reminders.py` — the deferred-notification
  scheduling engine (`schedule_reminder`, `cancel_reminder`,
  `_send_scheduled_notification`, and the APScheduler job table);
* `app/services/intent_parser.py` — the two-tier intent resolver,
  including a small backtracking regex engine faithful to the `re.search`
  patterns used by the rule tier;
* `app/services/command_router.py` — slot validation and dispatch;
* `app/services/orchestrator.py` / `app/services/tts.py` — pipeline
  failure containment;
* `app/services/reminders.py` — alarm-time parsing (`_parse_alarm_time`).

Python `datetime` objects are modelled at one-second granularity as an
integer wall-clock reading together with an optional fixed UTC offset
(`tzinfo`); machine floats used only for the confidence values 0.0/0.7/
0.8/0.9 are modelled as exact hundredths (`Nat`, 0.9 as 90; the order
and equality of these literals agree with the machine floats).  External
collaborators (Firebase send, the LLM, STT/TTS, the database) are passed
in as outcome oracles, matching the spec's collaborator contracts.
-/

set_option maxRecDepth 8000

/-! ## Association-list model of Python dictionaries

`self.reminders` is a dict of dicts keyed by `user_id` then `reminder_id`;
we flatten it to a single association list keyed by the pair, which has the
same lookup/assignment behaviour.  The APScheduler job store is an
association list keyed by the job id string. -/

/-- Dictionary lookup: first binding of key `k`. -/
def alookup {κ α : Type} [DecidableEq κ] (k : κ) : List (κ × α) → Option α
  | [] => none
  | (k', v) :: rest => if k = k' then some v else alookup k rest

/-- Dictionary assignment `d[k] = v`: replace the binding of `k` if present,
otherwise append a new binding. -/
def aset {κ α : Type} [DecidableEq κ] (k : κ) (v : α) : List (κ × α) → List (κ × α)
  | [] => [(k, v)]
  | (k', v') :: rest => if k = k' then (k, v) :: rest else (k', v') :: aset k v rest

/-- Dictionary deletion `del d[k]` / APScheduler `remove_job`: drop the first
binding of `k`. -/
def adel {κ α : Type} [DecidableEq κ] (k : κ) : List (κ × α) → List (κ × α)
  | [] => []
  | (k', v') :: rest => if k = k' then rest else (k', v') :: adel k rest

/-- Number of bindings of key `k` (1 for every key of a real dict). -/
def countKey {κ α : Type} [DecidableEq κ] (k : κ) (l : List (κ × α)) : Nat :=
  (l.filter (fun p => decide (p.1 = k))).length

theorem alookup_aset_self {κ α : Type} [DecidableEq κ] (k : κ) (v : α)
    (l : List (κ × α)) : alookup k (aset k v l) = some v := by
  induction l with
  | nil => simp [aset, alookup]
  | cons hd tl ih =>
    by_cases h : k = hd.1
    · simp [aset, alookup, h]
    · simpa [aset, alookup, h] using ih

theorem aset_aset {κ α : Type} [DecidableEq κ] (k : κ) (v w : α)
    (l : List (κ × α)) : aset k v (aset k w l) = aset k v l := by
  induction l with
  | nil => simp [aset]
  | cons hd tl ih =>
    by_cases h : k = hd.1
    · simp [aset, h]
    · simp [aset, h, ih]

theorem countKey_cons_self {κ α : Type} [DecidableEq κ] (k : κ) (v : κ × α)
    (h : v.1 = k) (l : List (κ × α)) :
    countKey k (v :: l) = countKey k l + 1 := by
  simp [countKey, List.filter_cons, h]

theorem countKey_cons_ne {κ α : Type} [DecidableEq κ] (k : κ) (v : κ × α)
    (h : ¬ v.1 = k) (l : List (κ × α)) :
    countKey k (v :: l) = countKey k l := by
  simp [countKey, List.filter_cons, h]

theorem countKey_aset {κ α : Type} [DecidableEq κ] (k : κ) (v : α)
    (l : List (κ × α)) :
    countKey k (aset k v l) = if countKey k l = 0 then 1 else countKey k l := by
  induction l with
  | nil => simp [aset, countKey, List.filter]
  | cons hd tl ih =>
    by_cases h : k = hd.1
    · have h' : hd.1 = k := h.symm
      simp only [aset, if_pos h]
      rw [countKey_cons_self k (k, v) rfl tl, countKey_cons_self k hd h' tl]
      simp
    · have h' : ¬ hd.1 = k := fun hh => h hh.symm
      simp only [aset, if_neg h]
      rw [countKey_cons_ne k hd h', countKey_cons_ne k hd h', ih]

theorem countKey_zero_iff_alookup_none {κ α : Type} [DecidableEq κ] (k : κ)
    (l : List (κ × α)) : countKey k l = 0 ↔ alookup k l = none := by
  induction l with
  | nil => simp [countKey, alookup]
  | cons hd tl ih =>
    by_cases h : k = hd.1
    · have h' : hd.1 = k := h.symm
      rw [countKey_cons_self k hd h' tl]
      simp [alookup, h]
    · have h' : ¬ hd.1 = k := fun hh => h hh.symm
      rw [countKey_cons_ne k hd h' tl]
      simpa [alookup, h] using ih

theorem countKey_adel {κ α : Type} [DecidableEq κ] (k : κ) (l : List (κ × α)) :
    countKey k (adel k l) = countKey k l - 1 := by
  induction l with
  | nil => simp [adel, countKey]
  | cons hd tl ih =>
    by_cases h : k = hd.1
    · have h' : hd.1 = k := h.symm
      simp only [adel, if_pos h]
      rw [countKey_cons_self k hd h' tl]
      simp
    · have h' : ¬ hd.1 = k := fun hh => h hh.symm
      simp only [adel, if_neg h]
      rw [countKey_cons_ne k hd h', countKey_cons_ne k hd h', ih]

/-! ## Python `datetime` model (`firebase_reminders.py`)

A `datetime` is a wall-clock reading in seconds from an arbitrary epoch plus
an optional `tzinfo`, modelled as a fixed UTC offset in seconds (`none` for
a naive datetime).  The instant denoted by an aware datetime is
`wall - offset`. -/

structure PyDateTime where
  wall : Int
  tz : Option Int
deriving DecidableEq, Repr

/-- Normalisation performed by `schedule_reminder` (lines 145–155):
a naive time gets `replace(tzinfo=timezone.utc)` (same wall clock, read as
UTC); an aware time gets `astimezone(timezone.utc)` (offset conversion).
The result is the stored UTC instant `scheduled_time`. -/
def normalizeToUtc (t : PyDateTime) : Int :=
  match t.tz with
  | none => t.wall
  | some off => t.wall - off

/-! ## FirebaseRemindersService state and operations -/

/-- One entry of `self.reminders[user_id][reminder_id]` (the
`reminder_data` dict built in `schedule_reminder`). -/
structure ReminderRec where
  reminder_id : String
  user_id : String
  fcm_token : String
  reminder_text : String
  scheduled_time : Int
  status : String
  created_at : Int
  sent_at : Option Int := none
  cancelled_at : Option Int := none
  firebase_response : Option String := none
  error : Option String := none
deriving DecidableEq, Repr

/-- An APScheduler date-trigger job: its `run_date` and the `reminder_data`
snapshot passed as `args`. -/
structure FRJob where
  run_date : Int
  payload : ReminderRec
deriving DecidableEq, Repr

/-- The mutable state of `FirebaseRemindersService`: whether the Firebase
app initialised, the reminders table, and the scheduler job table. -/
structure FRState where
  firebase_app : Bool
  reminders : List ((String × String) × ReminderRec)
  jobs : List (String × FRJob)
deriving DecidableEq, Repr

/-- Value returned by a successful `schedule_reminder`. -/
structure ScheduleOk where
  reminder_id : String
  scheduled_for : Int
  notification_job_id : String
deriving DecidableEq, Repr

/-- Value returned by `cancel_reminder`. -/
structure CancelOk where
  cancelled_at : Int
deriving DecidableEq, Repr

/-- `FirebaseRemindersService.schedule_reminder` (lines 123–214).
The pair threads the mutated state; `Except.error` models the raised
`ValueError` (the state component at a raise point is whatever had been
mutated so far — here nothing, since validation precedes storage).
`now` is `datetime.now(timezone.utc)` as an instant. -/
def schedule_reminder (s : FRState) (now : Int)
    (user_id fcm_token reminder_text : String) (scheduled_time : PyDateTime)
    (rid : Option String) : FRState × Except String ScheduleOk :=
  if s.firebase_app = false then (s, Except.error "Firebase not initialized")
  else
    -- `if not reminder_id:` — None and the empty string both trigger generation
    let reminder_id :=
      match rid with
      | some r => if r = "" then "reminder_" ++ user_id ++ "_" ++ toString now else r
      | none => "reminder_" ++ user_id ++ "_" ++ toString now
    let st := normalizeToUtc scheduled_time
    if st ≤ now then (s, Except.error "Scheduled time must be in the future")
    else
      let rdata : ReminderRec :=
        { reminder_id := reminder_id, user_id := user_id, fcm_token := fcm_token,
          reminder_text := reminder_text, scheduled_time := st,
          status := "scheduled", created_at := now }
      let job_id := "firebase_reminder_" ++ reminder_id
      ({ s with
          reminders := aset (user_id, reminder_id) rdata s.reminders,
          -- `add_job(..., id=job_id, replace_existing=True)`
          jobs := aset job_id ⟨st, rdata⟩ s.jobs },
       Except.ok { reminder_id := reminder_id, scheduled_for := st,
                   notification_job_id := job_id })

/-- `FirebaseRemindersService._send_scheduled_notification` (lines 216–268).
`send_result` is the outcome of the external `messaging.send` call
(`Except.ok response` or a raised exception message).  The status update is
guarded only by presence of the record, not by its current status. -/
def send_scheduled_notification (s : FRState) (now : Int) (rd : ReminderRec)
    (send_result : Except String String) : FRState :=
  if s.firebase_app = false then s
  else
    match send_result with
    | Except.ok resp =>
      match alookup (rd.user_id, rd.reminder_id) s.reminders with
      | some r =>
        let r' := { r with status := "sent", sent_at := some now,
                           firebase_response := some resp }
        { s with reminders := aset (rd.user_id, rd.reminder_id) r' s.reminders }
      | none => s
    | Except.error e =>
      match alookup (rd.user_id, rd.reminder_id) s.reminders with
      | some r =>
        let r' := { r with status := "failed", error := some e }
        { s with reminders := aset (rd.user_id, rd.reminder_id) r' s.reminders }
      | none => s

/-- The scheduler firing the date-trigger job `job_id` at time `now`:
the one-shot job leaves the job table and its callback
`_send_scheduled_notification` runs on the stored `args` snapshot. -/
def fire_job (s : FRState) (now : Int) (job_id : String)
    (send_result : Except String String) : FRState :=
  match alookup job_id s.jobs with
  | none => s
  | some j =>
    send_scheduled_notification { s with jobs := adel job_id s.jobs } now
      j.payload send_result

/-- APScheduler `remove_job`: raises (`Except.error`) when the id is
unknown. -/
def remove_job {α : Type} (job_id : String) (jobs : List (String × α)) :
    Except String (List (String × α)) :=
  match alookup job_id jobs with
  | some _ => Except.ok (adel job_id jobs)
  | none => Except.error "job not found"

/-- `FirebaseRemindersService.cancel_reminder` (lines 281–306).  The inner
`try/except` swallows a missing-job error from `remove_job`; the status
update is guarded only by presence of the record.  The call always returns
success. -/
def cancel_reminder (s : FRState) (now : Int) (user_id reminder_id : String) :
    FRState × Except String CancelOk :=
  let job_id := "firebase_reminder_" ++ reminder_id
  let jobs :=
    match remove_job job_id s.jobs with
    | Except.ok js => js
    | Except.error _ => s.jobs  -- only a warning is logged
  let reminders :=
    match alookup (user_id, reminder_id) s.reminders with
    | some r =>
      let r' := { r with status := "cancelled", cancelled_at := some now }
      aset (user_id, reminder_id) r' s.reminders
    | none => s.reminders
  ({ s with jobs := jobs, reminders := reminders },
   Except.ok { cancelled_at := now })

/-! ## Scheduling-engine theorems (claims C1–C5) -/

/-- C2: if the normalized trigger time is less than or equal to the current
UTC time, `schedule_reminder` raises the `ValueError` (`InvalidTime`) and
returns with the service state — in particular the reminder table and the
job table — unchanged: the validation happens before any storage. -/
theorem schedule_reminder_past_rejected (s : FRState) (now : Int)
    (u f x : String) (t : PyDateTime) (rid : Option String)
    (hfb : s.firebase_app = true) (hpast : normalizeToUtc t ≤ now) :
    schedule_reminder s now u f x t rid =
      (s, Except.error "Scheduled time must be in the future") := by
  simp [schedule_reminder, hfb, hpast]

/-- Witness for C2 at a concrete past time (trigger 50 ≤ now 100). -/
theorem schedule_reminder_past_rejected_witness :
    schedule_reminder ⟨true, [], []⟩ 100 "u1" "tok" "hi" ⟨50, none⟩ (some "r1") =
      (⟨true, [], []⟩, Except.error "Scheduled time must be in the future") :=
  schedule_reminder_past_rejected ⟨true, [], []⟩ 100 "u1" "tok" "hi" ⟨50, none⟩
    (some "r1") rfl (by decide)

/-- C3: a naive datetime is treated as UTC — scheduling with wall-clock
reading `w` and no timezone is indistinguishable (same stored
`scheduled_time`, same state, same result) from scheduling with the same
wall clock explicitly marked UTC; and an aware datetime with offset `off`
is converted to UTC by subtracting the offset. -/
theorem schedule_reminder_naive_eq_utc (s : FRState) (now : Int)
    (u f x : String) (w : Int) (rid : Option String) (off : Int) :
    schedule_reminder s now u f x ⟨w, none⟩ rid =
      schedule_reminder s now u f x ⟨w, some 0⟩ rid ∧
    normalizeToUtc ⟨w, some off⟩ = w - off := by
  constructor
  · simp [schedule_reminder, normalizeToUtc]
  · rfl

/-- C1 (counterexample): the claimed invariant — a job in a terminal status
never changes status again, in particular `cancel` on an already-sent job
leaves its status alone — is false on the code.  Concrete run: schedule
reminder `r1` for time 100 (now = 0), let the timer fire successfully at
100 (status becomes `"sent"`, a terminal status), then call
`cancel_reminder` at 200: the recorded status changes to `"cancelled"`. -/
theorem cancel_after_sent_counterexample :
    (let s0 : FRState := ⟨true, [], []⟩
     let s1 := (schedule_reminder s0 0 "u1" "tok" "call mom" ⟨100, none⟩
        (some "r1")).1
     let s2 := fire_job s1 100 "firebase_reminder_r1"
        (Except.ok "projects/x/messages/1")
     let s3 := (cancel_reminder s2 200 "u1" "r1").1
     (alookup ("u1", "r1") s2.reminders).map ReminderRec.status = some "sent" ∧
     (alookup ("u1", "r1") s3.reminders).map ReminderRec.status =
       some "cancelled") := by
  decide

/-- C1 (amended): the cancel path overwrites the recorded status of any
existing reminder with `"cancelled"` unconditionally — including reminders
already in the terminal statuses `"sent"` or `"failed"` (nothing guards on
the current status). -/
theorem cancel_reminder_overwrites_status (s : FRState) (now : Int)
    (u rid : String) (r : ReminderRec)
    (h : alookup (u, rid) s.reminders = some r) :
    alookup (u, rid) ((cancel_reminder s now u rid).1).reminders =
      some ({ r with status := "cancelled", cancelled_at := some now }) := by
  simp [cancel_reminder, h, alookup_aset_self]

/-- Witness for the amended C1: cancelling a reminder whose status is
already the terminal `"sent"` rewrites it to `"cancelled"`. -/
theorem cancel_reminder_overwrites_status_witness :
    alookup ("u1", "r1") ((cancel_reminder
        ⟨true, [(("u1", "r1"),
          ⟨"r1", "u1", "tok", "call mom", 100, "sent", 0, some 100, none,
            some "projects/x/messages/1", none⟩)], []⟩ 200 "u1" "r1").1).reminders =
      some (⟨"r1", "u1", "tok", "call mom", 100, "cancelled", 0, some 100,
        some 200, some "projects/x/messages/1", none⟩) :=
  cancel_reminder_overwrites_status _ 200 "u1" "r1"
    ⟨"r1", "u1", "tok", "call mom", 100, "sent", 0, some 100, none,
      some "projects/x/messages/1", none⟩ rfl

/-- C4: `cancel_reminder` never raises and always reports success (the
missing-job error from the scheduler is swallowed, the table update is
guarded by existence), and it is idempotent: a second call — on a reminder
that was already cancelled, never existed, or already fired — returns the
same state and the same success value as the first.  The hypothesis says
the job id is bound at most once, which holds for a real scheduler job
table (a dict). -/
theorem cancel_reminder_idempotent (s : FRState) (now : Int) (u rid : String)
    (hcount : countKey ("firebase_reminder_" ++ rid) s.jobs ≤ 1) :
    (cancel_reminder s now u rid).2 = Except.ok ⟨now⟩ ∧
    cancel_reminder (cancel_reminder s now u rid).1 now u rid =
      cancel_reminder s now u rid := by
  constructor
  · rfl
  · cases hjob : alookup ("firebase_reminder_" ++ rid) s.jobs with
    | none =>
      cases hrem : alookup (u, rid) s.reminders with
      | none =>
        simp [cancel_reminder, remove_job, hjob, hrem]
      | some r =>
        simp [cancel_reminder, remove_job, hjob, hrem, alookup_aset_self,
          aset_aset]
    | some j =>
      have hc1 : countKey ("firebase_reminder_" ++ rid) s.jobs ≠ 0 := by
        intro h0
        rw [countKey_zero_iff_alookup_none] at h0
        rw [h0] at hjob
        cases hjob
      have hdel : countKey ("firebase_reminder_" ++ rid)
          (adel ("firebase_reminder_" ++ rid) s.jobs) = 0 := by
        rw [countKey_adel]
        omega
      have hnone : alookup ("firebase_reminder_" ++ rid)
          (adel ("firebase_reminder_" ++ rid) s.jobs) = none :=
        (countKey_zero_iff_alookup_none _ _).mp hdel
      cases hrem : alookup (u, rid) s.reminders with
      | none =>
        simp [cancel_reminder, remove_job, hjob, hrem, hnone]
      | some r =>
        simp [cancel_reminder, remove_job, hjob, hrem, hnone,
          alookup_aset_self, aset_aset]

/-- Witness for C4: cancelling reminder `"r1"` (present, scheduled, one
pending job) succeeds, and cancelling again is a no-op with the same
success report. -/
theorem cancel_reminder_idempotent_witness :
    ((cancel_reminder
        ⟨true, [(("u1", "r1"),
          ⟨"r1", "u1", "tok", "call mom", 100, "scheduled", 0, none, none,
            none, none⟩)],
          [("firebase_reminder_r1",
            ⟨100, ⟨"r1", "u1", "tok", "call mom", 100, "scheduled", 0, none,
              none, none, none⟩⟩)]⟩ 50 "u1" "r1").2 = Except.ok ⟨50⟩ ∧
     cancel_reminder (cancel_reminder
        ⟨true, [(("u1", "r1"),
          ⟨"r1", "u1", "tok", "call mom", 100, "scheduled", 0, none, none,
            none, none⟩)],
          [("firebase_reminder_r1",
            ⟨100, ⟨"r1", "u1", "tok", "call mom", 100, "scheduled", 0, none,
              none, none, none⟩⟩)]⟩ 50 "u1" "r1").1 50 "u1" "r1" =
       cancel_reminder
        ⟨true, [(("u1", "r1"),
          ⟨"r1", "u1", "tok", "call mom", 100, "scheduled", 0, none, none,
            none, none⟩)],
          [("firebase_reminder_r1",
            ⟨100, ⟨"r1", "u1", "tok", "call mom", 100, "scheduled", 0, none,
              none, none, none⟩⟩)]⟩ 50 "u1" "r1") :=
  cancel_reminder_idempotent _ 50 "u1" "r1" (by decide)

/-- C5: scheduling twice under the same reminder id `rid` (both calls
valid: Firebase up, both trigger times strictly in the future) leaves
exactly one pending job under the id — `add_job(..., replace_existing=True)`
replaces rather than duplicates — and that job's trigger time is the second
call's normalized trigger time. -/
theorem schedule_reminder_replaces (s0 : FRState) (now1 now2 : Int)
    (u f1 f2 x1 x2 rid : String) (t1 t2 : PyDateTime)
    (hfb : s0.firebase_app = true) (hrid : ¬ rid = "")
    (h1 : now1 < normalizeToUtc t1) (h2 : now2 < normalizeToUtc t2)
    (hcount : countKey ("firebase_reminder_" ++ rid) s0.jobs ≤ 1) :
    countKey ("firebase_reminder_" ++ rid)
        ((schedule_reminder (schedule_reminder s0 now1 u f1 x1 t1 (some rid)).1
          now2 u f2 x2 t2 (some rid)).1).jobs = 1 ∧
    (alookup ("firebase_reminder_" ++ rid)
        ((schedule_reminder (schedule_reminder s0 now1 u f1 x1 t1 (some rid)).1
          now2 u f2 x2 t2 (some rid)).1).jobs).map FRJob.run_date =
      some (normalizeToUtc t2) := by
  have hs : (schedule_reminder (schedule_reminder s0 now1 u f1 x1 t1 (some rid)).1
        now2 u f2 x2 t2 (some rid)).1.jobs =
      aset ("firebase_reminder_" ++ rid)
        ⟨normalizeToUtc t2,
          { reminder_id := rid, user_id := u, fcm_token := f2,
            reminder_text := x2, scheduled_time := normalizeToUtc t2,
            status := "scheduled", created_at := now2 }⟩
        (aset ("firebase_reminder_" ++ rid)
          ⟨normalizeToUtc t1,
            { reminder_id := rid, user_id := u, fcm_token := f1,
              reminder_text := x1, scheduled_time := normalizeToUtc t1,
              status := "scheduled", created_at := now1 }⟩ s0.jobs) := by
    simp [schedule_reminder, hfb, hrid, not_le.mpr h1, not_le.mpr h2]
  rw [hs]
  have hc1 : countKey ("firebase_reminder_" ++ rid)
      (aset ("firebase_reminder_" ++ rid)
        ⟨normalizeToUtc t1,
          { reminder_id := rid, user_id := u, fcm_token := f1,
            reminder_text := x1, scheduled_time := normalizeToUtc t1,
            status := "scheduled", created_at := now1 }⟩ s0.jobs) = 1 := by
    rw [countKey_aset]
    rcases Nat.lt_or_ge (countKey ("firebase_reminder_" ++ rid) s0.jobs) 1 with hlt | hge
    · simp [Nat.lt_one_iff.mp hlt]
    · have he : countKey ("firebase_reminder_" ++ rid) s0.jobs = 1 :=
        le_antisymm hcount hge
      simp [he]
  constructor
  · rw [countKey_aset, hc1]
    simp
  · rw [alookup_aset_self]
    rfl

/-- Witness for C5: two schedules under id `"r1"` (times 100 then 200, both
future) leave one pending job under `"firebase_reminder_r1"` with trigger
time 200. -/
theorem schedule_reminder_replaces_witness :
    countKey "firebase_reminder_r1"
        ((schedule_reminder (schedule_reminder ⟨true, [], []⟩ 0 "u1" "tokA"
            "call mom" ⟨100, none⟩ (some "r1")).1
          10 "u1" "tokB" "call dad" ⟨200, none⟩ (some "r1")).1).jobs = 1 ∧
    (alookup "firebase_reminder_r1"
        ((schedule_reminder (schedule_reminder ⟨true, [], []⟩ 0 "u1" "tokA"
            "call mom" ⟨100, none⟩ (some "r1")).1
          10 "u1" "tokB" "call dad" ⟨200, none⟩ (some "r1")).1).jobs).map
      FRJob.run_date = some (normalizeToUtc ⟨200, none⟩) :=
  schedule_reminder_replaces ⟨true, [], []⟩ 0 10 "u1" "tokA" "tokB"
    "call mom" "call dad" "r1" ⟨100, none⟩ ⟨200, none⟩ rfl (by decide)
    (by decide) (by decide) (by decide)

/-! ## A backtracking regex engine for the rule tier (`intent_parser.py`)

`IntentParser` matches a fixed set of `re.search` patterns.  We embed the
exact patterns as abstract syntax and give them Python `re` semantics:
alternatives are tried left to right, greedy quantifiers longest first,
lazy quantifiers shortest first, and `re.search` returns the match at the
leftmost start position.  All repetition in these patterns is over
single-character classes, which the AST reflects.  Each pattern has at most
one capturing group and no nesting, so a match carries one optional
capture. -/

inductive RE where
  | eps : RE
  | str : List Char → RE                  -- literal character sequence
  | cls : (Char → Bool) → RE              -- one character from a class
  | seq : RE → RE → RE
  | alt : RE → RE → RE                    -- left alternative preferred
  | opt : RE → RE                         -- greedy `?`
  | repG : (Char → Bool) → Nat → Nat → RE -- greedy `class{lo,hi}`
  | starG : (Char → Bool) → RE            -- greedy `class*`
  | plusG : (Char → Bool) → RE            -- greedy `class+`
  | plusL : (Char → Bool) → RE            -- lazy `class+?`
  | grp : RE → RE                         -- the capturing group
  | eos : RE                              -- `$`

/-- Is `pre` a prefix of `cs`? -/
def isPrefixList : List Char → List Char → Bool
  | [], _ => true
  | _ :: _, [] => false
  | a :: as, b :: bs => a == b && isPrefixList as bs

/-- All ways a greedy `class{lo,hi}` can consume from `cs`, longest first:
each result is the rest of the input (no capture at this level). -/
def classMatches (p : Char → Bool) (lo hi : Nat) (cs : List Char) :
    List (List Char × Option (List Char)) :=
  let r := min hi (cs.takeWhile p).length
  if r < lo then []
  else (List.range (r + 1 - lo)).map (fun i => (cs.drop (r - i), none))

/-- All ways a lazy `class+?` can consume from `cs`, shortest first. -/
def classMatchesLazy (p : Char → Bool) (cs : List Char) :
    List (List Char × Option (List Char)) :=
  (List.range (cs.takeWhile p).length).map (fun i => (cs.drop (i + 1), none))

/-- All ways `r` can match a prefix of `cs`, in backtracking priority
order; each way is the remaining input together with the capture of the
group, if the group participated. -/
def matchRE : RE → List Char → List (List Char × Option (List Char))
  | .eps, cs => [(cs, none)]
  | .str s, cs =>
    if isPrefixList s cs then [(cs.drop s.length, none)] else []
  | .cls p, cs =>
    match cs with
    | [] => []
    | c :: rest => if p c then [(rest, none)] else []
  | .seq a b, cs =>
    (matchRE a cs).flatMap (fun pr =>
      (matchRE b pr.1).map (fun qr =>
        (qr.1, match qr.2 with | some g => some g | none => pr.2)))
  | .alt a b, cs => matchRE a cs ++ matchRE b cs
  | .opt a, cs => matchRE a cs ++ [(cs, none)]
  | .repG p lo hi, cs => classMatches p lo hi cs
  | .starG p, cs => classMatches p 0 cs.length cs
  | .plusG p, cs => classMatches p 1 cs.length cs
  | .plusL p, cs => classMatchesLazy p cs
  | .grp a, cs =>
    (matchRE a cs).map (fun pr =>
      (pr.1, some (cs.take (cs.length - pr.1.length))))
  | .eos, cs => if cs.isEmpty then [(cs, none)] else []

/-- `re.search`: the first (highest-priority) match at the leftmost start
position; `some cap` when a match exists, where `cap` is the content of
the capturing group (`none` when the pattern has no group).  `$` in a
pattern refers to the end of the whole subject, which every suffix here
shares. -/
def searchRE (r : RE) : List Char → Option (Option (List Char))
  | [] =>
    match matchRE r [] with
    | res :: _ => some res.2
    | [] => none
  | c :: rest =>
    match matchRE r (c :: rest) with
    | res :: _ => some res.2
    | [] => searchRE r rest

/-! ### Character classes (Python `re` semantics, ASCII subject) -/

/-- Python `\s`: space, tab, newline, carriage return, vertical tab,
form feed. -/
def isSpaceCh (c : Char) : Bool :=
  c == ' ' || c == '\t' || c == '\n' || c == '\r' ||
    c.toNat == 11 || c.toNat == 12

/-- Python `.` (no DOTALL): any character except newline. -/
def dotCh (c : Char) : Bool := !(c == '\n')

/-- Python `[a-z\s]`. -/
def azOrSpace (c : Char) : Bool := c.isLower || isSpaceCh c

/-- The apostrophe character (in `what'?s` / `how'?s`). -/
def aposCh (c : Char) : Bool := c.toNat == 39

/-- Shorthand for a literal pattern. -/
def rs (s : String) : RE := RE.str s.data

/-! ### The exact rule-tier patterns of `_load_intent_patterns` -/

/-- `(\d{1,2}(?::\d{2})?\s*(?:am|pm)?)` — the time capture shared by the
three SET_ALARM patterns. -/
def timeGroupRE : RE :=
  .grp (.seq (.repG Char.isDigit 1 2)
    (.seq (.opt (.seq (rs ":") (.repG Char.isDigit 2 2)))
      (.seq (.starG isSpaceCh) (.opt (.alt (rs "am") (rs "pm"))))))

/-- `set (?:an? )?alarm (?:for|at) (…)`. -/
def patSetAlarm1 : RE :=
  .seq (rs "set ")
    (.seq (.opt (.seq (rs "a") (.seq (.opt (rs "n")) (rs " "))))
      (.seq (rs "alarm ")
        (.seq (.alt (rs "for") (rs "at")) (.seq (rs " ") timeGroupRE))))

/-- `wake me (?:up )?(?:at|by) (…)`. -/
def patSetAlarm2 : RE :=
  .seq (rs "wake me ")
    (.seq (.opt (rs "up "))
      (.seq (.alt (rs "at") (rs "by")) (.seq (rs " ") timeGroupRE)))

/-- `remind me (?:at|by) (…)`. -/
def patSetAlarm3 : RE :=
  .seq (rs "remind me ")
    (.seq (.alt (rs "at") (rs "by")) (.seq (rs " ") timeGroupRE))

/-- `delete (?:the )?alarm` and its two siblings. -/
def patDeleteAlarm1 : RE := .seq (rs "delete ") (.seq (.opt (rs "the ")) (rs "alarm"))

def patDeleteAlarm2 : RE := .seq (rs "cancel ") (.seq (.opt (rs "the ")) (rs "alarm"))

def patDeleteAlarm3 : RE := .seq (rs "remove ") (.seq (.opt (rs "the ")) (rs "alarm"))

/-- `(?:find|search|show|get).{0,30}flights?`. -/
def patFlights1 : RE :=
  .seq (.alt (rs "find") (.alt (rs "search") (.alt (rs "show") (rs "get"))))
    (.seq (.repG dotCh 0 30) (.seq (rs "flight") (.opt (rs "s"))))

/-- `flights?.{0,30}(?:from|to)`. -/
def patFlights2 : RE :=
  .seq (rs "flight")
    (.seq (.opt (rs "s"))
      (.seq (.repG dotCh 0 30) (.alt (rs "from") (rs "to"))))

/-- `(?:book|need).{0,30}(?:flight|ticket)`. -/
def patFlights3 : RE :=
  .seq (.alt (rs "book") (rs "need"))
    (.seq (.repG dotCh 0 30) (.alt (rs "flight") (rs "ticket")))

/-- `(?:what'?s|how'?s) (?:the )?weather`. -/
def patWeather1 : RE :=
  .seq (.alt (.seq (rs "what") (.seq (.opt (.cls aposCh)) (rs "s")))
             (.seq (rs "how") (.seq (.opt (.cls aposCh)) (rs "s"))))
    (.seq (rs " ") (.seq (.opt (rs "the ")) (rs "weather")))

/-- `weather (?:in|for|at)`. -/
def patWeather2 : RE :=
  .seq (rs "weather ") (.alt (rs "in") (.alt (rs "for") (rs "at")))

/-- `temperature (?:in|for|at)`. -/
def patWeather3 : RE :=
  .seq (rs "temperature ") (.alt (rs "in") (.alt (rs "for") (rs "at")))

/-- `from\s+([a-z\s]+?)(?:\s+to|\s+for|\s+on|$)`. -/
def patFromSlot : RE :=
  .seq (rs "from")
    (.seq (.plusG isSpaceCh)
      (.seq (.grp (.plusL azOrSpace))
        (.alt (.seq (.plusG isSpaceCh) (rs "to"))
          (.alt (.seq (.plusG isSpaceCh) (rs "for"))
            (.alt (.seq (.plusG isSpaceCh) (rs "on")) .eos)))))

/-- `to\s+([a-z\s]+?)(?:\s+on|\s+for|$)`. -/
def patToSlot : RE :=
  .seq (rs "to")
    (.seq (.plusG isSpaceCh)
      (.seq (.grp (.plusL azOrSpace))
        (.alt (.seq (.plusG isSpaceCh) (rs "on"))
          (.alt (.seq (.plusG isSpaceCh) (rs "for")) .eos))))

/-- `(?:jan|feb|mar|apr|may|jun|jul|aug|sep|oct|nov|dec)`. -/
def monthsRE : RE :=
  .alt (rs "jan") (.alt (rs "feb") (.alt (rs "mar") (.alt (rs "apr")
    (.alt (rs "may") (.alt (rs "jun") (.alt (rs "jul") (.alt (rs "aug")
      (.alt (rs "sep") (.alt (rs "oct") (.alt (rs "nov") (rs "dec")))))))))))

/-- `(?:on\s+)?(\d{1,2}(?:st|nd|rd|th)?\s+(?:jan|…|dec)[a-z]*\s+\d{4})`. -/
def patDateSlot : RE :=
  .seq (.opt (.seq (rs "on") (.plusG isSpaceCh)))
    (.grp (.seq (.repG Char.isDigit 1 2)
      (.seq (.opt (.alt (rs "st") (.alt (rs "nd") (.alt (rs "rd") (rs "th")))))
        (.seq (.plusG isSpaceCh)
          (.seq monthsRE
            (.seq (.starG Char.isLower)
              (.seq (.plusG isSpaceCh) (.repG Char.isDigit 4 4))))))))

/-! ## Intent parser (`intent_parser.py`) -/

/-- `IntentType` from `app/models/schemas.py`. -/
inductive IntentType where
  | set_alarm
  | delete_alarm
  | search_flights
  | book_flight
  | get_weather
  | send_message
  | unknown
deriving DecidableEq, Repr

/-- The string value of each enum member. -/
def intentValue : IntentType → String
  | .set_alarm => "set_alarm"
  | .delete_alarm => "delete_alarm"
  | .search_flights => "search_flights"
  | .book_flight => "book_flight"
  | .get_weather => "get_weather"
  | .send_message => "send_message"
  | .unknown => "unknown"

/-- `IntentType(s)`: the enum constructor from a value string; `none`
models the raised `ValueError` for an unrecognized label. -/
def intentTypeOfString (s : String) : Option IntentType :=
  if s = "set_alarm" then some .set_alarm
  else if s = "delete_alarm" then some .delete_alarm
  else if s = "search_flights" then some .search_flights
  else if s = "book_flight" then some .book_flight
  else if s = "get_weather" then some .get_weather
  else if s = "send_message" then some .send_message
  else if s = "unknown" then some .unknown
  else none

/-- The `Intent` pydantic model; slot values in the rule tier are strings,
float confidences are modelled in exact hundredths (0.9 as 90). -/
structure PIntent where
  intent : IntentType
  slots : List (String × String)
  confidence : Nat
  original_text : String
deriving DecidableEq, Repr

/-- Python `str.lower` (ASCII subjects). -/
def pyLower (cs : List Char) : List Char := cs.map Char.toLower

/-- Python `str.strip`: remove leading and trailing whitespace. -/
def pyStrip (cs : List Char) : List Char :=
  ((cs.dropWhile isSpaceCh).reverse.dropWhile isSpaceCh).reverse

/-- Python `needle in text` substring test. -/
def hasSub (needle : List Char) : List Char → Bool
  | [] => needle.isEmpty
  | c :: rest => isPrefixList needle (c :: rest) || hasSub needle rest

/-- `IntentParser._extract_flight_slots` (lines 122–154): source and
destination via the lazy-group patterns (stripped), the date token, and
the first day-part keyword in the fixed morning/afternoon/evening/night
priority order.  Slots are listed in Python dict insertion order. -/
def extract_flight_slots (text : List Char) : List (String × String) :=
  (match searchRE patFromSlot text with
   | some (some g) => [("source", String.mk (pyStrip g))]
   | _ => []) ++
  (match searchRE patToSlot text with
   | some (some g) => [("destination", String.mk (pyStrip g))]
   | _ => []) ++
  (match searchRE patDateSlot text with
   | some (some g) => [("date", String.mk g)]
   | _ => []) ++
  (if hasSub "morning".data text then [("time_window", "morning")]
   else if hasSub "afternoon".data text then [("time_window", "afternoon")]
   else if hasSub "evening".data text then [("time_window", "evening")]
   else if hasSub "night".data text then [("time_window", "night")]
   else [])

/-- `IntentParser._extract_slots_from_pattern` (lines 102–120): `SET_ALARM`
takes the captured time expression verbatim; `SEARCH_FLIGHTS` runs the
flight-slot extraction; other intents get no slots. -/
def extract_slots_from_pattern (text : List Char) (intent : IntentType)
    (cap : Option (List Char)) : List (String × String) :=
  if intent = .set_alarm then
    match cap with
    | some g => [("time", String.mk g)]
    | none => []
  else if intent = .search_flights then extract_flight_slots text
  else []

/-- `_load_intent_patterns` (lines 29–52), in dict insertion order. -/
def intent_patterns : List (IntentType × List RE) :=
  [(.set_alarm, [patSetAlarm1, patSetAlarm2, patSetAlarm3]),
   (.delete_alarm, [patDeleteAlarm1, patDeleteAlarm2, patDeleteAlarm3]),
   (.search_flights, [patFlights1, patFlights2, patFlights3]),
   (.get_weather, [patWeather1, patWeather2, patWeather3])]

/-- First pattern of a list that matches, with its capture. -/
def firstPatMatch (text : List Char) : List RE → Option (Option (List Char))
  | [] => none
  | p :: ps =>
    match searchRE p text with
    | some cap => some cap
    | none => firstPatMatch text ps

/-- First (intent, pattern) pair that matches, iterating intents in table
order. -/
def firstIntentMatch (text : List Char) :
    List (IntentType × List RE) → Option (IntentType × Option (List Char))
  | [] => none
  | (it, ps) :: rest =>
    match firstPatMatch text ps with
    | some cap => some (it, cap)
    | none => firstIntentMatch text rest

/-- `IntentParser._rule_based_parse` (lines 78–100): first matching pattern
wins, fixed confidence 0.9, `original_text` is the (already lowercased,
stripped) argument. -/
def rule_based_parse (text : List Char) : Option PIntent :=
  match firstIntentMatch text intent_patterns with
  | some (it, cap) =>
    some { intent := it, slots := extract_slots_from_pattern text it cap,
           confidence := 90, original_text := String.mk text }
  | none => none

/-- Outcome of the LLM fallback call in `_llm_parse`: `failure` covers an
API error, non-JSON output, or any other exception inside the `try`;
`ok` carries the parsed JSON fields (`intent` defaulting to "unknown",
`confidence` defaulting to 0.7 are the caller's concern). -/
inductive LLMOutcome where
  | failure
  | ok (intent : String) (slots : List (String × String)) (confidence : Nat)

/-- `IntentParser._llm_parse` (lines 156–214): an unrecognized intent label
maps to `UNKNOWN`; any failure yields `UNKNOWN` with confidence 0.0. -/
def llm_parse (text : String) (o : LLMOutcome) : PIntent :=
  match o with
  | .failure =>
    { intent := .unknown, slots := [], confidence := 0, original_text := text }
  | .ok istr slots conf =>
    { intent := (intentTypeOfString istr).getD .unknown, slots := slots,
      confidence := conf, original_text := text }

/-- `IntentParser.parse` (lines 54–76): lowercase and strip, try the rule
tier, accept its result when the confidence exceeds 0.8, otherwise fall
back to the LLM on the original text. -/
def parse (text : String) (o : LLMOutcome) : PIntent :=
  let text_lower := pyStrip (pyLower text.data)
  match rule_based_parse text_lower with
  | some i => if i.confidence > 80 then i else llm_parse text o
  | none => llm_parse text o

/-! ## Command router (`command_router.py`) -/

/-- An action-handler result: the `status`/`message` dict every handler
returns. -/
structure ActionRes where
  status : String
  message : String
deriving DecidableEq, Repr

/-- Python falsiness of an optional slot string (`if not source:`):
missing or empty. -/
def pyFalsy (o : Option String) : Bool :=
  match o with
  | none => true
  | some s => s.isEmpty

/-- The `missing` list built by `CommandRouter._handle_search_flights`
(lines 113–120): source, destination and date are validated together, and
the human-facing names of every missing (absent or empty) field are
collected in a fixed order. -/
def missingNames (slots : List (String × String)) : List String :=
  (if pyFalsy (alookup "source" slots) then ["source city"] else []) ++
  (if pyFalsy (alookup "destination" slots) then ["destination city"] else []) ++
  (if pyFalsy (alookup "date" slots) then ["travel date"] else [])

/-- `CommandRouter._handle_search_flights` (lines 101–139) continued: a
single `missing_slots` result names all missing fields; `flightsResult` is
the outcome of `flights_service.search_flights` when validation passes. -/
def handle_search_flights (slots : List (String × String))
    (flightsResult : ActionRes) : ActionRes :=
  let missing := missingNames slots
  if missing.isEmpty = false then
    { status := "missing_slots",
      message := "I need the following information: " ++
        String.intercalate ", " missing }
  else flightsResult

/-! ## Intent-resolution theorems (claims C6–C8) -/

theorem rule_based_parse_confidence (cs : List Char) (i : PIntent)
    (h : rule_based_parse cs = some i) : i.confidence = 90 := by
  unfold rule_based_parse at h
  cases hm : firstIntentMatch cs intent_patterns with
  | none => rw [hm] at h; cases h
  | some pr =>
    rw [hm] at h
    injection h with h'
    rw [← h']

/-- C6: whenever the rule tier matches (any input text), `parse` returns
exactly the rule-tier intent — matched kind, extracted slots, confidence
exactly 0.9 (90 hundredths) — and the result does not depend on the LLM
oracle `o`, i.e. the fallback tier is not consulted.  The witness
instantiates the spec example "set an alarm for 6:30 am", whose result is
`SetAlarm` with slots `{time: "6:30 am"}`. -/
theorem parse_rule_tier (text : String) (i : PIntent) (o : LLMOutcome)
    (h : rule_based_parse (pyStrip (pyLower text.data)) = some i) :
    i.confidence = 90 ∧ parse text o = i := by
  have hc := rule_based_parse_confidence _ _ h
  refine ⟨hc, ?_⟩
  simp only [parse, h, hc]
  norm_num

/-- Witness for C6 on "set an alarm for 6:30 am": the first SET_ALARM
pattern matches, the time slot is the captured "6:30 am", confidence is
0.9, and the LLM outcome (here: failure) is irrelevant. -/
theorem parse_rule_tier_witness :
    (⟨.set_alarm, [("time", "6:30 am")], 90,
      "set an alarm for 6:30 am"⟩ : PIntent).confidence = 90 ∧
    parse "set an alarm for 6:30 am" LLMOutcome.failure =
      ⟨.set_alarm, [("time", "6:30 am")], 90, "set an alarm for 6:30 am"⟩ :=
  parse_rule_tier "set an alarm for 6:30 am"
    ⟨.set_alarm, [("time", "6:30 am")], 90, "set an alarm for 6:30 am"⟩
    LLMOutcome.failure (by decide)

/-- C7: `parse` is a total function (the embedding of a method whose
fallback tier catches every exception), and when no rule matches: a fallback
failure — call error or malformed output — yields `Unknown` with
confidence exactly 0.0, and a structurally valid fallback reply whose
intent label is not a recognized `IntentType` value also maps to
`Unknown`. -/
theorem parse_fallback_unknown (text istr : String)
    (slots : List (String × String)) (conf : Nat)
    (h : rule_based_parse (pyStrip (pyLower text.data)) = none)
    (h2 : intentTypeOfString istr = none) :
    parse text LLMOutcome.failure =
      ⟨.unknown, [], 0, text⟩ ∧
    (parse text (LLMOutcome.ok istr slots conf)).intent = .unknown := by
  constructor
  · simp [parse, h, llm_parse]
  · simp [parse, h, llm_parse, h2]

/-- Witness for C7 at "hello" (no rule matches) with the unrecognized
fallback label "gibberish". -/
theorem parse_fallback_unknown_witness :
    parse "hello" LLMOutcome.failure = ⟨.unknown, [], 0, "hello"⟩ ∧
    (parse "hello" (LLMOutcome.ok "gibberish" [] 50)).intent = .unknown :=
  parse_fallback_unknown "hello" "gibberish" [] 50 (by decide) (by decide)

/-- C8 (counterexample): on "find flights to nowhere" the destination IS
extracted — the lazy group of `to\s+([a-z\s]+?)(?:\s+on|\s+for|$)` captures
"nowhere" — and the router's single MissingSlots message names
"source city" and "travel date", not "destination city" as the claim
states. -/
theorem find_flights_nowhere_counterexample :
    alookup "destination"
        (parse "find flights to nowhere" LLMOutcome.failure).slots =
      some "nowhere" ∧
    handle_search_flights
        (parse "find flights to nowhere" LLMOutcome.failure).slots
        ⟨"success", "found flights"⟩ =
      ⟨"missing_slots",
        "I need the following information: source city, travel date"⟩ := by
  decide

/-- C8 (amended): the router validates source, destination and date
together and returns one MissingSlots result whose message is exactly the
join of the human-facing names of every missing field; for
"find flights to nowhere" the source and date cannot be extracted (the
destination is extracted as "nowhere") and the router answers MissingSlots
naming "source city" and "travel date". -/
theorem search_flights_missing_named (slots : List (String × String))
    (fr fr' : ActionRes) (hmiss : ¬ missingNames slots = []) :
    handle_search_flights slots fr =
      ⟨"missing_slots", "I need the following information: " ++
        String.intercalate ", " (missingNames slots)⟩ ∧
    missingNames (parse "find flights to nowhere" LLMOutcome.failure).slots =
      ["source city", "travel date"] ∧
    handle_search_flights
        (parse "find flights to nowhere" LLMOutcome.failure).slots fr' =
      ⟨"missing_slots",
        "I need the following information: source city, travel date"⟩ := by
  have hfalse : (missingNames slots).isEmpty = false := by
    cases hmn : missingNames slots with
    | nil => exact absurd hmn hmiss
    | cons a l => rfl
  have hm2 : missingNames
      (parse "find flights to nowhere" LLMOutcome.failure).slots =
      ["source city", "travel date"] := by decide
  have heq : ("I need the following information: " ++
      String.intercalate ", " ["source city", "travel date"] : String) =
      "I need the following information: source city, travel date" := by decide
  refine ⟨?_, hm2, ?_⟩
  · simp [handle_search_flights, hfalse]
  · simp [handle_search_flights, hm2, heq]

/-- Witness for the amended C8: slots that hold only a destination miss
both the source city and the travel date, and the router names both. -/
theorem search_flights_missing_named_witness :
    handle_search_flights [("destination", "nowhere")] ⟨"success", "x"⟩ =
      ⟨"missing_slots", "I need the following information: " ++
        String.intercalate ", " (missingNames [("destination", "nowhere")])⟩ ∧
    missingNames (parse "find flights to nowhere" LLMOutcome.failure).slots =
      ["source city", "travel date"] ∧
    handle_search_flights
        (parse "find flights to nowhere" LLMOutcome.failure).slots
        ⟨"success", "found flights"⟩ =
      ⟨"missing_slots",
        "I need the following information: source city, travel date"⟩ :=
  search_flights_missing_named [("destination", "nowhere")] ⟨"success", "x"⟩
    ⟨"success", "found flights"⟩ (by decide)

/-! ## Orchestrator (`orchestrator.py`) and TTS (`tts.py`) -/

/-- `TTSService.text_to_speech`: the OpenAI call either yields base64
audio or raises; the `except` branch returns the empty string, so the
method never raises.  `o` is the collaborator outcome for the given
text. -/
def text_to_speech (o : Option String) : String :=
  match o with
  | some audio => audio
  | none => ""

/-- The `data` payload of a `ConversationResponse`: the action result on
success, `{"error": str(e)}` on the degraded path. -/
inductive RespData where
  | action (a : ActionRes)
  | err (msg : String)
deriving DecidableEq, Repr

/-- The `ConversationResponse` pydantic model (confidence in
hundredths). -/
structure ConversationResponse where
  success : Bool
  text_response : String
  audio_response : String
  intent : String
  confidence : Nat
  data : RespData
deriving DecidableEq, Repr

/-- The fixed apologetic reply of the orchestrator's `except` branch. -/
def errorResponseText : String :=
  "I apologize, but I encountered an error processing your request. Please try again."

/-- Outcomes of the collaborator calls awaited by
`Orchestrator.process_conversation`: step 1 text input (direct text or
STT), the LLM oracle behind step 2 (`parse` itself never raises), step 3
context fetch, step 4 conversation storage, step 5 routing, step 6
response building, and the TTS outcomes for the main reply and for the
apology.  `Except.error` carries `str(e)` of the exception that stage
would raise. -/
structure StageOutcomes where
  text_input : Except String String
  llm : LLMOutcome
  context : Except String (List (String × String))
  store : Except String Unit
  routeResult : Except String ActionRes
  buildResponse : Except String String
  tts_main : Option String
  tts_err : Option String

/-- Steps 1–6 of `process_conversation`, sequenced inside the `try`. -/
def pipelineStages (o : StageOutcomes) :
    Except String (PIntent × ActionRes × String) := do
  let text ← o.text_input
  let intent := parse text o.llm
  let _ctx ← o.context
  let _ ← o.store
  let ar ← o.routeResult
  let tr ← o.buildResponse
  pure (intent, ar, tr)

/-- `Orchestrator.process_conversation` (lines 43–120): on success, step 7
converts the built reply to speech and step 8 returns the full response;
any exception from steps 1–7 is caught once, and the `except` branch still
runs text-to-speech on the fixed apology before returning
`success=False`. -/
def process_conversation (o : StageOutcomes) : ConversationResponse :=
  match pipelineStages o with
  | Except.ok (intent, ar, tr) =>
    { success := true, text_response := tr,
      audio_response := text_to_speech o.tts_main,
      intent := intentValue intent.intent, confidence := intent.confidence,
      data := RespData.action ar }
  | Except.error e =>
    { success := false, text_response := errorResponseText,
      audio_response := text_to_speech o.tts_err,
      intent := "error", confidence := 0, data := RespData.err e }

/-- C9: `process_conversation` is a total function into well-formed
`ConversationResponse` values — no collaborator outcome makes it
propagate an error — and for every outcome assignment it either succeeds,
or (when some stage fails) returns `success=False` with the fixed
apologetic text, the apology's speech synthesis still attempted
(`text_to_speech` of the apology oracle), intent "error", confidence 0.0,
and the stage's error in `data`. -/
theorem process_conversation_never_raises (o : StageOutcomes) :
    (process_conversation o).success = true ∨
    ∃ e, process_conversation o =
      { success := false, text_response := errorResponseText,
        audio_response := text_to_speech o.tts_err,
        intent := "error", confidence := 0, data := RespData.err e } := by
  cases h : pipelineStages o with
  | ok v =>
    left
    obtain ⟨intent, ar, tr⟩ := v
    simp [process_conversation, h]
  | error e =>
    right
    exact ⟨e, by simp [process_conversation, h]⟩

/-! ## Alarm-time parsing (`reminders.py`)

`RemindersService._parse_alarm_time` works in the user's timezone,
modelled as a fixed UTC offset `off` in seconds (DST transitions are out
of scope of the one-second-granularity model).  `dateutil.parser` is an
external collaborator: its outcome is `none` (parse failure, the `except`
branch) or the parsed `(hour, minute)` of the time string.  Note that for
the positive divisor 86400 Lean's `Int` division (Euclidean) coincides
with Python floor division, so "today's date in the user's timezone" is
`(nowUtc + off) / 86400`. -/

/-- `_parse_alarm_time` (lines 95–137): combine the parsed time-of-day
with today's date in the user's timezone, move it one day forward when it
is not strictly after the current time, convert to UTC for storage. -/
def parse_alarm_time (off nowUtc : Int) (parsed : Option (Nat × Nat)) :
    Option Int :=
  match parsed with
  | none => none
  | some (h, m) =>
    let localNow := nowUtc + off
    let today := localNow / 86400
    let alarmLocal := today * 86400 + ((h : Int) * 3600 + (m : Int) * 60)
    -- `if alarm_dt <= now: alarm_dt += timedelta(days=1)`
    let alarmFinal :=
      if alarmLocal ≤ localNow then alarmLocal + 86400 else alarmLocal
    -- `alarm_dt.astimezone(pytz.UTC)`
    some (alarmFinal - off)

/-- `RemindersService.set_alarm` (lines 31–93) restricted to its
observable outcome: parse failure yields the error status (no alarm
stored); otherwise the alarm is stored with the computed UTC instant and
the call reports success.  (The database insert and APScheduler call are
collaborators that do not alter the stored time.) -/
def set_alarm (off nowUtc : Int) (parsed : Option (Nat × Nat)) :
    String × Option Int :=
  match parse_alarm_time off nowUtc parsed with
  | none => ("error", none)
  | some t => ("success", some t)

/-- C10: for every successfully parsed time string (`hour < 24`,
`minute < 60` as `dateutil` guarantees), the stored alarm time is a UTC
instant strictly after the current time; it is today's date in the
caller's timezone combined with the time-of-day, pushed forward by exactly
one day when that instant is not strictly in the future; and `set_alarm`
reports success — a past time-of-day is never rejected. -/
theorem set_alarm_future (off nowUtc : Int) (h m : Nat)
    (_hh : h < 24) (_hm : m < 60) :
    ∃ t, parse_alarm_time off nowUtc (some (h, m)) = some t ∧
      nowUtc < t ∧
      set_alarm off nowUtc (some (h, m)) = ("success", some t) ∧
      t = (if ((nowUtc + off) / 86400) * 86400 + ((h : Int) * 3600 + (m : Int) * 60)
              ≤ nowUtc + off
           then ((nowUtc + off) / 86400) * 86400 +
             ((h : Int) * 3600 + (m : Int) * 60) + 86400
           else ((nowUtc + off) / 86400) * 86400 +
             ((h : Int) * 3600 + (m : Int) * 60)) - off := by
  refine ⟨_, rfl, ?_, ?_, rfl⟩
  · have hdiv : 86400 * ((nowUtc + off) / 86400) + (nowUtc + off) % 86400 =
        nowUtc + off := Int.ediv_add_emod (nowUtc + off) 86400
    have hmodlt : (nowUtc + off) % 86400 < 86400 :=
      Int.emod_lt_of_pos (nowUtc + off) (by norm_num)
    have hpos : (0 : Int) ≤ (h : Int) * 3600 + (m : Int) * 60 := by positivity
    by_cases hle : ((nowUtc + off) / 86400) * 86400 +
        ((h : Int) * 3600 + (m : Int) * 60) ≤ nowUtc + off
    · simp only [parse_alarm_time, if_pos hle]
      linarith
    · simp only [parse_alarm_time, if_neg hle]
      push_neg at hle
      linarith
  · simp [set_alarm, parse_alarm_time]

/-- Witness for C10: offset +19800 s (UTC+5:30), current time 1000000,
time-of-day 06:30 — the computed instant is strictly in the future and
`set_alarm` succeeds. -/
theorem set_alarm_future_witness :
    ∃ t, parse_alarm_time 19800 1000000 (some (6, 30)) = some t ∧
      1000000 < t ∧
      set_alarm 19800 1000000 (some (6, 30)) = ("success", some t) ∧
      t = (if ((1000000 + 19800) / 86400) * 86400 +
              ((6 : Int) * 3600 + (30 : Int) * 60) ≤ 1000000 + 19800
           then ((1000000 + 19800) / 86400) * 86400 +
             ((6 : Int) * 3600 + (30 : Int) * 60) + 86400
           else ((1000000 + 19800) / 86400) * 86400 +
             ((6 : Int) * 3600 + (30 : Int) * 60)) - 19800 :=
  set_alarm_future 19800 1000000 6 30 (by decide) (by decide)
